import Mathlib

/-!
Shallow embedding of `src/bot.py` (TelegramPCManager): the authorization
middleware with attempt-tracking lockout, the shell-command and file-upload
safety classifiers, the cached volume provider, the recording lifecycle and
the file-upload handlers, together with theorems settling the specification
claims about them.

Python strings are modelled as `List Char`; the process-global mutable
variables of `bot.py` become fields of explicit state structures threaded
through the functions; platform calls that can raise are modelled by
explicit success flags in an environment record.
-/

namespace Bot

/-! ### Access gate (`bot.py` lines 33-81)

`_unauthorized_attempts` is a dict from user id to attempt count (missing
key reads as 0); `config.ALLOWED_USER_IDS` is the static allow-list. -/

/-- The static configuration: `config.ALLOWED_USER_IDS`, loaded once. -/
structure Cfg where
  allowed : List Nat

/-- The mutable auth state: `_unauthorized_attempts` (dict with default 0). -/
structure AuthState where
  attempts : Nat → Nat

/-- `_MAX_ATTEMPTS = 5`. -/
def MAX_ATTEMPTS : Nat := 5

/-- Initial process state: `_unauthorized_attempts = {}`. -/
def initAuthState : AuthState := ⟨fun _ => 0⟩

/-- `is_authorized`: membership in the allow-list. -/
def is_authorized (cfg : Cfg) (user_id : Nat) : Bool :=
  cfg.allowed.contains user_id

/-- `log_unauthorized_attempt`: increment the counter for `user_id`; a
diagnostic line is printed iff the new count is `≤ _MAX_ATTEMPTS`.
Returns the new state and whether the diagnostic was emitted. -/
def log_unauthorized_attempt (s : AuthState) (user_id : Nat) :
    AuthState × Bool :=
  let n := s.attempts user_id + 1
  (⟨fun u => if u = user_id then n else s.attempts u⟩,
   decide (n ≤ MAX_ATTEMPTS))

/-- `is_blocked`: too many attempts. -/
def is_blocked (s : AuthState) (user_id : Nat) : Bool :=
  decide (s.attempts user_id > MAX_ATTEMPTS)

/-- An inbound transport event: a plain message or a callback query,
carrying the sender's id. -/
inductive Event where
  | message (uid : Nat)
  | callback (uid : Nat)
deriving DecidableEq

/-- Sender id of an event. -/
def Event.uid : Event → Nat
  | .message u => u
  | .callback u => u

/-- What the middleware did with an event: ran the wrapped handler
(the only way a CapabilityProvider can be reached), silently dropped it,
or answered the callback with a visible no-access alert. -/
inductive Outcome where
  | handled
  | dropped
  | alerted
deriving DecidableEq

/-- Result of one middleware step. -/
structure StepResult where
  state : AuthState
  outcome : Outcome
  diagnostic : Bool

/-- `auth_middleware` (messages): blocked ids return early; unauthorized ids
are logged and dropped; otherwise the handler runs. -/
def auth_middleware (cfg : Cfg) (s : AuthState) (user_id : Nat) :
    StepResult :=
  if is_blocked s user_id then ⟨s, .dropped, false⟩
  else if !is_authorized cfg user_id then
    let r := log_unauthorized_attempt s user_id
    ⟨r.1, .dropped, r.2⟩
  else ⟨s, .handled, false⟩

/-- `auth_callback_middleware` (callback queries): same gate, but the
unauthorized branch answers with a visible alert before returning. -/
def auth_callback_middleware (cfg : Cfg) (s : AuthState) (user_id : Nat) :
    StepResult :=
  if is_blocked s user_id then ⟨s, .dropped, false⟩
  else if !is_authorized cfg user_id then
    let r := log_unauthorized_attempt s user_id
    ⟨r.1, .alerted, r.2⟩
  else ⟨s, .handled, false⟩

/-- Dispatch one inbound event through the matching outer middleware. -/
def processEvent (cfg : Cfg) (s : AuthState) : Event → StepResult
  | .message u => auth_middleware cfg s u
  | .callback u => auth_callback_middleware cfg s u

/-- Process a list of inbound events in order, collecting per-event
outcome and diagnostic flag. -/
def runTrace (cfg : Cfg) (s : AuthState) :
    List Event → AuthState × List (Event × Outcome × Bool)
  | [] => (s, [])
  | e :: es =>
    let r := processEvent cfg s e
    let rest := runTrace cfg r.state es
    (rest.1, (e, r.outcome, r.diagnostic) :: rest.2)

/-- Number of events from `uid` in a trace log whose handler actually ran. -/
def handledCount (uid : Nat)
    (log : List (Event × Outcome × Bool)) : Nat :=
  (log.filter (fun r => r.1.uid = uid && r.2.1 = Outcome.handled)).length

/-- Number of events from `uid` that emitted a diagnostic record. -/
def diagCount (uid : Nat)
    (log : List (Event × Outcome × Bool)) : Nat :=
  (log.filter (fun r => r.1.uid = uid && r.2.2)).length

/-! ### SafetyFilter: shell-command classifier (`cmd_execute`, lines 1486-1489)

Python strings are `List Char`; `str.lower()` is `Char.toLower` mapped over
the text (the Lean function lowers exactly the ASCII range, which agrees
with Python on every character occurring in the block-list patterns);
Python `in` on strings is infix (substring) containment. -/

/-- The fixed `dangerous_patterns` block-list of `cmd_execute`. -/
def dangerous_patterns : List (List Char) :=
  ["format", "del /s", "rd /s", "rmdir /s", ":()\x7b:|", "rm -rf"].map
    String.toList

/-- The inline classifier of `cmd_execute`:
`any(p in command.lower() for p in dangerous_patterns)`. `true` means the
command is refused before any shell execution. -/
def cmd_blocked (command : List Char) : Bool :=
  dangerous_patterns.any fun p => decide (p <:+: command.map Char.toLower)

/-! ### SafetyFilter: file-upload classifier (`is_file_allowed`, lines 1534-1551) -/

/-- `Path(filename).name`: the final path component (after the last slash
or backslash separator). -/
def pathName (s : List Char) : List Char :=
  (((s.splitOn '/').flatMap fun t => t.splitOn '\\')).getLastD s

/-- `Path(filename).suffix`: the extension of the final component.
CPython: `i = name.rfind(".")`; the suffix is `name[i:]` when
`0 < i < len(name) - 1`, else the empty string (so dotfiles and names
ending in a dot have no suffix). -/
def pathSuffix (s : List Char) : List Char :=
  let name := pathName s
  let j := name.reverse.indexOf '.'
  if j < name.length then
    let i := name.length - 1 - j
    if 0 < i ∧ i < name.length - 1 then name.drop i else []
  else []

/-- `BLOCKED_EXTENSIONS`: the fixed set of denied filename extensions. -/
def BLOCKED_EXTENSIONS : List (List Char) :=
  [".exe", ".bat", ".cmd", ".com", ".scr", ".pif",
   ".msi", ".msp",
   ".vbs", ".vbe", ".js", ".jse", ".ws", ".wsf", ".wsc", ".wsh",
   ".ps1", ".psm1", ".psd1",
   ".reg",
   ".lnk",
   ".dll", ".sys",
   ".jar"].map String.toList

/-- `is_file_allowed`: an empty filename is allowed; otherwise the
lower-cased suffix must not be a blocked extension. -/
def is_file_allowed (filename : List Char) : Bool :=
  if filename.isEmpty then true
  else !(BLOCKED_EXTENSIONS.contains ((pathSuffix filename).map Char.toLower))

/-! ### Volume resource cache (`bot.py` lines 86-127)

`_volume_interface` is a lazily-resolved cached platform handle and
`_cached_volume_level` the last observed level (initially 50). The
physical mixer's master scalar is part of the modelled state
(`scalar`); calls that can raise are governed by success flags in
`VolEnv`.

The arithmetic on the scalar is floating point: `level / 100` on line 123
is an IEEE binary64 operation (Python float), the value crossing the COM
boundary into `SetMasterVolumeLevelScalar` is narrowed to binary32 (C
float), and `GetMasterVolumeLevelScalar() * 100` on line 109 is again a
binary64 operation before `int()` truncates it. Every value occurring
here is a nonnegative normal number, so each operation is exactly
"round the exact result to the nearest 53- or 24-bit dyadic value, ties
to even". Floats are therefore modelled exactly as dyadic values
`mant * 2 ^ exp`, and the roundings computed on numerator/denominator
pairs with natural-number arithmetic (which the kernel can evaluate). -/

/-- Base-2 logarithm on naturals by structural recursion on a fuel
argument (so it evaluates inside the kernel); `fuel ≥ log₂ n` suffices. -/
def nlog2Aux : Nat → Nat → Nat
  | 0, _ => 0
  | fuel + 1, n => if 2 ≤ n then nlog2Aux fuel (n / 2) + 1 else 0

/-- `⌊log₂ n⌋` for `n ≥ 1` (and 0 for `n = 0`): `n` itself is always
enough fuel. -/
def nlog2 (n : Nat) : Nat := nlog2Aux n n

/-- A nonnegative binary floating-point value, exactly `mant * 2 ^ exp`:
the shape of every Python float (binary64) and C float (binary32)
occurring in the volume code. -/
structure FloatVal where
  mant : Nat
  exp : Int
deriving DecidableEq

/-- The value of a `FloatVal` as a fraction `(num, den)` of naturals,
`den > 0`. -/
def FloatVal.frac (f : FloatVal) : Nat × Nat :=
  match f.exp with
  | .ofNat n => (f.mant * 2 ^ n, 1)
  | .negSucc n => (f.mant, 2 ^ (n + 1))

/-- Round the fraction `a / b` (with `b > 0`) to the nearest natural
number, ties to even. -/
def natRoundHalfEven (a b : Nat) : Nat :=
  let q := a / b
  let r := a % b
  if 2 * r < b then q
  else if b < 2 * r then q + 1
  else if q % 2 = 0 then q else q + 1

/-- Does `2 ^ e ≤ a / b` hold (for `a, b > 0`)? By cross-multiplication,
so only natural-number arithmetic is involved. -/
def pow2LeFrac (e : Int) (a b : Nat) : Bool :=
  match e with
  | .ofNat n => b * 2 ^ n ≤ a
  | .negSucc n => b ≤ a * 2 ^ (n + 1)

/-- `⌊log₂ (a / b)⌋` for positive `a, b`: the bit lengths give the answer
up to one, fixed by two comparisons. -/
def fracLog2 (a b : Nat) : Int :=
  let k : Int := (nlog2 a : Int) - (nlog2 b : Int)
  if pow2LeFrac (k + 1) a b then k + 1
  else if !pow2LeFrac k a b then k - 1
  else k

/-- IEEE binary floating-point rounding of the nonnegative fraction
`a / b` (`b > 0`) in the normal range: round to nearest with `prec`
mantissa bits, ties to even. -/
def fpRoundFrac (prec : Nat) (a b : Nat) : FloatVal :=
  if a = 0 then ⟨0, 0⟩
  else
    let scale : Int := (prec : Int) - 1 - fracLog2 a b
    let m : Nat :=
      match scale with
      | .ofNat n => natRoundHalfEven (a * 2 ^ n) b
      | .negSucc n => natRoundHalfEven a (b * 2 ^ (n + 1))
    ⟨m, -scale⟩

/-- Rounding `a / b` to a Python float (IEEE binary64, 53 mantissa
bits): the arithmetic of `level / 100` (line 123) and `scalar * 100`
(line 109). -/
def fl64Frac (a b : Nat) : FloatVal := fpRoundFrac 53 a b

/-- Narrowing a value to a C float (IEEE binary32, 24 mantissa bits), as
happens to the scalar argument at the ctypes/COM boundary. -/
def fl32Val (f : FloatVal) : FloatVal := fpRoundFrac 24 f.frac.1 f.frac.2

/-- Python `int()` on a nonnegative float value: truncation, here the
floor of the fraction. -/
def FloatVal.toIntTrunc (f : FloatVal) : Nat := f.frac.1 / f.frac.2

/-- Success/failure of the platform audio calls: handle resolution
(`AudioUtilities.GetSpeakers`), `GetMasterVolumeLevelScalar` and
`SetMasterVolumeLevelScalar`. -/
structure VolEnv where
  resolveOk : Bool
  getOk : Bool
  setOk : Bool

/-- The volume-related process state: whether `_volume_interface` is
resolved, the `_cached_volume_level` fallback, and the platform mixer's
current master scalar — a binary32 value — (external state, carried here
so the round trip is expressible). -/
structure VolState where
  iface : Bool
  cached : Int
  scalar : FloatVal

/-- Initial state: `_volume_interface = None`, `_cached_volume_level = 50`;
the mixer scalar starts at an arbitrary fixed value (one half). -/
def initVolState : VolState := ⟨false, 50, ⟨1, .negSucc 0⟩⟩

/-- `_get_volume_interface`: return the cached handle, resolving it on
first use; on resolution failure the handle stays unresolved. Returns the
new state and whether a handle is available. -/
def get_volume_interface (env : VolEnv) (s : VolState) : VolState × Bool :=
  if s.iface then (s, true)
  else if env.resolveOk then ({ s with iface := true }, true)
  else (s, false)

/-- `get_current_volume`: with a handle and a successful query, refresh the
cache from `int(GetMasterVolumeLevelScalar() * 100)` — the stored binary32
scalar widens to binary64 exactly, the multiplication by 100 rounds to
binary64, and `int()` truncates toward zero; on any failure return the
cached level unchanged. -/
def get_current_volume (env : VolEnv) (s : VolState) : VolState × Int :=
  let r := get_volume_interface env s
  if r.2 then
    if env.getOk then
      let v : Int :=
        ((fl64Frac (r.1.scalar.frac.1 * 100) r.1.scalar.frac.2).toIntTrunc
          : Int)
      ({ r.1 with cached := v }, v)
    else (r.1, r.1.cached)
  else (r.1, r.1.cached)

/-- `set_volume`: clamp the requested level into `[0, 100]`; with a handle
and a successful platform call, write `level / 100` to the mixer — the
division rounds to binary64 and the COM call narrows the scalar to
binary32 — and update the cache to the clamped integer; on failure leave
mixer and cache unchanged. -/
def set_volume (env : VolEnv) (s : VolState) (level : Int) : VolState :=
  let lvl : Int := max 0 (min 100 level)
  let r := get_volume_interface env s
  if r.2 then
    if env.setOk then
      { r.1 with scalar := fl32Val (fl64Frac lvl.toNat 100), cached := lvl }
    else r.1
  else r.1

/-! ### Recording lifecycle (`bot.py` lines 394-468)

`_recording` is the Active flag, `_recording_data` the list of buffered
frame chunks (each chunk a list of float samples, modelled as `ℚ`),
`_recording_stream` the open capture stream. `startOk` models success of
the sounddevice import and stream start; `encodeOk` models success of the
numpy import inside `stop_recording`. -/

/-- Success flags for the capture and encoding dependencies. -/
structure RecEnv where
  startOk : Bool
  encodeOk : Bool

/-- Recording-related process state. -/
structure RecState where
  recording : Bool
  data : List (List ℚ)
  streamOpen : Bool

/-- Initial state: not recording, empty buffer, no stream. -/
def initRecState : RecState := ⟨false, [], false⟩

/-- `_sample_rate = 44100`. -/
def sample_rate : Nat := 44100

/-- `start_recording`: returns `false` immediately (state untouched) when
already recording; otherwise clears the buffer and starts a stream. On a
stream-open failure the buffer has already been cleared and `_recording`
is reset to `false`. -/
def start_recording (env : RecEnv) (s : RecState) : RecState × Bool :=
  if s.recording then (s, false)
  else if env.startOk then (⟨true, [], true⟩, true)
  else ({ s with recording := false, data := [] }, false)

/-- `(x * 32767).astype(np.int16)` for one sample: scale, truncate toward
zero, wrap into the 16-bit range. -/
def toInt16 (x : ℚ) : Int :=
  let y : Int := if 0 ≤ x then Int.floor (x * 32767) else Int.ceil (x * 32767)
  (y + 2 ^ 15) % 2 ^ 16 - 2 ^ 15

/-- The encoded result of `stop_recording`: the WAV parameters written by
the `wave` module and the int16 sample data. -/
structure WavFile where
  nchannels : Nat
  sampwidth : Nat
  framerate : Nat
  samples : List Int
deriving DecidableEq

/-- `np.concatenate` of the buffered chunks followed by WAV encoding at
1 channel, 2-byte samples, `_sample_rate` frames per second. -/
def encode_wav (chunks : List (List ℚ)) : WavFile :=
  ⟨1, 2, sample_rate, (chunks.flatten).map toInt16⟩

/-- Duration in seconds of an encoded payload (mono): frames / rate. -/
def wavDuration (w : WavFile) : ℚ :=
  (w.samples.length : ℚ) / (w.framerate : ℚ)

/-- `stop_recording`: returns `none` when not recording; otherwise stops,
closes the stream, and — when the buffer is non-empty and numpy is
available — concatenates and encodes the buffered chunks. The `finally`
block clears the buffer on every path through the `try`. -/
def stop_recording (env : RecEnv) (s : RecState) :
    RecState × Option WavFile :=
  if !s.recording then (s, none)
  else if env.encodeOk then
    if s.data.isEmpty then (⟨false, [], false⟩, none)
    else (⟨false, [], false⟩, some (encode_wav s.data))
  else ({ s with recording := false, data := [] }, none)

/-! ### File-upload handlers (`bot.py` lines 1554-1698)

Each handler receives the transport attachment's optional `file_name`,
computes the target filename in `DOWNLOADS_DIR`, and downloads the file
there. The downloads directory is modelled as the list of filenames it
already holds; a successful download of name `f` makes `f` the newest
entry. Timestamp strings produced by `datetime.now().strftime` come from
the environment. -/

/-- The `datetime.now()` timestamp strings used to build filenames:
`ts_full` is `%Y%m%d_%H%M%S`, `ts_hms` is `%H%M%S`. -/
structure UploadEnv where
  ts_full : List Char
  ts_hms : List Char

/-- The contents of `DOWNLOADS_DIR`: the filenames that exist there. -/
structure Disk where
  files : List (List Char)

/-- Python `x or default` on an optional string field (`None` and the
empty string both fall back to the default). -/
def orDefault (file_name : Option (List Char)) (dflt : List Char) :
    List Char :=
  match file_name with
  | some n => if n.isEmpty then dflt else n
  | none => dflt

/-- `Path(filename).stem`: the final component without its suffix. -/
def pathStem (s : List Char) : List Char :=
  let name := pathName s
  name.take (name.length - (pathSuffix s).length)

/-- What an upload handler did: the new directory contents, the filename
written (`none` when nothing was persisted), and whether an
extension-blocked refusal message was sent. -/
structure UploadResult where
  disk : Disk
  written : Option (List Char)
  refusedExt : Bool

/-- `handle_document`: the only upload handler that consults
`is_file_allowed`; a blocked extension is refused before download, and a
filename collision gets a `_%H%M%S` time suffix inserted before the
extension. -/
def handle_document (env : UploadEnv) (d : Disk)
    (file_name : Option (List Char)) : UploadResult :=
  let filename := orDefault file_name ("file_".toList ++ env.ts_full)
  if !is_file_allowed filename then ⟨d, none, true⟩
  else
    let filepath :=
      if d.files.contains filename then
        pathStem filename ++ "_".toList ++ env.ts_hms ++ pathSuffix filename
      else filename
    ⟨⟨filepath :: d.files⟩, some filepath, false⟩

/-- `handle_video`: downloads to the attachment's `file_name` (or a
generated `video_<ts>.mp4`) with no classifier call and no collision
check. -/
def handle_video (env : UploadEnv) (d : Disk)
    (file_name : Option (List Char)) : UploadResult :=
  let filename :=
    orDefault file_name ("video_".toList ++ env.ts_full ++ ".mp4".toList)
  ⟨⟨filename :: d.files⟩, some filename, false⟩

/-- `handle_audio`: downloads to the attachment's `file_name` (or a
generated `audio_<ts>.mp3`) with no classifier call and no collision
check. -/
def handle_audio (env : UploadEnv) (d : Disk)
    (file_name : Option (List Char)) : UploadResult :=
  let filename :=
    orDefault file_name ("audio_".toList ++ env.ts_full ++ ".mp3".toList)
  ⟨⟨filename :: d.files⟩, some filename, false⟩

/-- `handle_photo`: always downloads to the generated name
`photo_<ts>.jpg`; no classifier call and no collision check. -/
def handle_photo (env : UploadEnv) (d : Disk) : UploadResult :=
  let filename := "photo_".toList ++ env.ts_full ++ ".jpg".toList
  ⟨⟨filename :: d.files⟩, some filename, false⟩

/-- `handle_voice`: always downloads to the generated name
`voice_<ts>.ogg`; no classifier call and no collision check. -/
def handle_voice (env : UploadEnv) (d : Disk) : UploadResult :=
  let filename := "voice_".toList ++ env.ts_full ++ ".ogg".toList
  ⟨⟨filename :: d.files⟩, some filename, false⟩

/-! ## Theorems -/

/-! ### Access-gate helper lemmas -/

/-- The callback middleware computes the same successor state as the
message middleware (only the visible outcome differs). -/
theorem callback_state_eq (cfg : Cfg) (s : AuthState) (u : Nat) :
    (auth_callback_middleware cfg s u).state =
      (auth_middleware cfg s u).state := by
  unfold auth_middleware auth_callback_middleware
  by_cases hb : is_blocked s u <;> by_cases ha : is_authorized cfg u <;>
    simp [hb, ha]

/-- One message-middleware step never decreases any id's counter. -/
theorem attempts_le_auth_middleware (cfg : Cfg) (s : AuthState)
    (u uid : Nat) :
    s.attempts uid ≤ (auth_middleware cfg s u).state.attempts uid := by
  unfold auth_middleware log_unauthorized_attempt
  by_cases hb : is_blocked s u
  · simp [hb]
  · by_cases ha : is_authorized cfg u
    · simp [hb, ha]
    · simp only [hb, ha, Bool.false_eq_true, if_false, Bool.not_false,
        if_true]
      by_cases he : uid = u
      · subst he
        simp
      · simp [he]

/-- One step of event processing never decreases any id's counter. -/
theorem attempts_le_processEvent (cfg : Cfg) (s : AuthState) (e : Event)
    (uid : Nat) :
    s.attempts uid ≤ (processEvent cfg s e).state.attempts uid := by
  cases e with
  | message u => exact attempts_le_auth_middleware cfg s u uid
  | callback u =>
    rw [show (processEvent cfg s (Event.callback u)).state =
        (auth_middleware cfg s u).state from callback_state_eq cfg s u]
    exact attempts_le_auth_middleware cfg s u uid

/-- A blocked sender's event is dropped unchanged: no handler, no
diagnostic, no state change. -/
theorem processEvent_blocked (cfg : Cfg) (s : AuthState) (e : Event)
    (hb : is_blocked s e.uid = true) :
    processEvent cfg s e = ⟨s, Outcome.dropped, false⟩ := by
  cases e with
  | message u =>
    unfold processEvent auth_middleware
    simp_all [Event.uid]
  | callback u =>
    unfold processEvent auth_callback_middleware
    simp_all [Event.uid]

/-- An event from an unauthorized or blocked sender never reaches the
wrapped handler. -/
theorem processEvent_not_handled (cfg : Cfg) (s : AuthState) (e : Event)
    (h : is_authorized cfg e.uid = false ∨ is_blocked s e.uid = true) :
    (processEvent cfg s e).outcome ≠ Outcome.handled := by
  by_cases hb : is_blocked s e.uid
  · rw [processEvent_blocked cfg s e hb]
    simp
  · have ha : is_authorized cfg e.uid = false := by
      rcases h with h | h
      · exact h
      · exact absurd h hb
    cases e with
    | message u =>
      unfold processEvent auth_middleware
      simp_all [Event.uid]
    | callback u =>
      unfold processEvent auth_callback_middleware
      simp_all [Event.uid]

/-- "Unauthorized or blocked" is preserved by every step (the allow-list
is static and counters never decrease). -/
theorem bad_preserved (cfg : Cfg) (s : AuthState) (e : Event) (uid : Nat)
    (h : is_authorized cfg uid = false ∨ is_blocked s uid = true) :
    is_authorized cfg uid = false ∨
      is_blocked (processEvent cfg s e).state uid = true := by
  rcases h with h | h
  · exact Or.inl h
  · refine Or.inr ?_
    have hle := attempts_le_processEvent cfg s e uid
    unfold is_blocked at h ⊢
    simp only [decide_eq_true_eq] at h ⊢
    omega

/-- Counting a cons cell in `handledCount`. -/
theorem handledCount_cons (uid : Nat) (x : Event × Outcome × Bool)
    (l : List (Event × Outcome × Bool)) :
    handledCount uid (x :: l) =
      (if x.1.uid = uid ∧ x.2.1 = Outcome.handled then 1 else 0) +
        handledCount uid l := by
  unfold handledCount
  rw [List.filter_cons]
  by_cases h : x.1.uid = uid ∧ x.2.1 = Outcome.handled
  · simp [h, Nat.add_comm]
  · simp only [h, if_false]
    rw [if_neg (by simpa using h)]
    simp

/-- Counting a cons cell in `diagCount`. -/
theorem diagCount_cons (uid : Nat) (x : Event × Outcome × Bool)
    (l : List (Event × Outcome × Bool)) :
    diagCount uid (x :: l) =
      (if x.1.uid = uid ∧ x.2.2 = true then 1 else 0) + diagCount uid l := by
  unfold diagCount
  rw [List.filter_cons]
  by_cases h : x.1.uid = uid ∧ x.2.2 = true
  · simp [h, Nat.add_comm]
  · simp only [h, if_false]
    rw [if_neg (by simpa using h)]
    simp

/-- A code point below the surrogate range survives `Char.ofNat`. -/
theorem toNat_ofNat_small (n : Nat) (h : n < 55296) :
    (Char.ofNat n).toNat = n := by
  have hv : n.isValidChar := Or.inl h
  simp [Char.ofNat, hv, Char.ofNatAux, Char.toNat, UInt32.toNat,
    BitVec.toNat_ofNatLt]

/-- Lower-casing after upper-casing agrees with lower-casing directly. -/
theorem toLower_toUpper (c : Char) :
    Char.toLower (Char.toUpper c) = Char.toLower c := by
  unfold Char.toUpper Char.toLower
  by_cases h : c.toNat ≥ 97 ∧ c.toNat ≤ 122
  · rw [if_pos h]
    have h32 : (Char.ofNat (c.toNat - 32)).toNat = c.toNat - 32 :=
      toNat_ofNat_small _ (by omega)
    rw [h32, if_pos (by omega : c.toNat - 32 ≥ 65 ∧ c.toNat - 32 ≤ 90),
        if_neg (by omega : ¬(c.toNat ≥ 65 ∧ c.toNat ≤ 90))]
    have hn : c.toNat - 32 + 32 = c.toNat := by omega
    rw [hn, Char.ofNat_toNat]
  · rw [if_neg h]

/-- Lower-casing an upper-cased text agrees with lower-casing it. -/
theorem map_toLower_map_toUpper (l : List Char) :
    (l.map Char.toUpper).map Char.toLower = l.map Char.toLower := by
  rw [List.map_map]
  exact List.map_congr_left fun c _ => toLower_toUpper c

/-- **C3**: the shell-command classifier denies a command exactly when its
case-folded text contains one of the fixed destructive-pattern substrings,
at any position; upper-casing the command does not change the verdict; and
concretely "FORMAT C:" and "echo hi && format d:" are denied while "dir"
is allowed. As a function of the command text alone, the classifier is
pure. -/
theorem C3_shell_classifier :
    (∀ command : List Char,
      cmd_blocked command = true ↔
        ∃ p ∈ dangerous_patterns, p <:+: command.map Char.toLower) ∧
    (∀ command : List Char,
      cmd_blocked (command.map Char.toUpper) = cmd_blocked command) ∧
    cmd_blocked "FORMAT C:".toList = true ∧
    cmd_blocked "echo hi && format d:".toList = true ∧
    cmd_blocked "dir".toList = false := by
  refine ⟨?_, ?_, by decide, by decide, by decide⟩
  · intro command
    simp [cmd_blocked]
  · intro command
    unfold cmd_blocked
    rw [map_toLower_map_toUpper]

/-- **C4**: the file-upload classifier denies a filename exactly when its
lower-cased suffix is one of the blocked extensions (a property of the
name only, never of file content); a filename with no suffix, including
the empty filename, is always allowed; and the spec's concrete examples
classify as stated. -/
theorem C4_file_classifier :
    (∀ filename : List Char,
      is_file_allowed filename = false ↔
        ((pathSuffix filename).map Char.toLower) ∈ BLOCKED_EXTENSIONS) ∧
    (∀ filename : List Char,
      pathSuffix filename = [] → is_file_allowed filename = true) ∧
    is_file_allowed "payload.EXE".toList = false ∧
    is_file_allowed "script.VBS".toList = false ∧
    is_file_allowed "lib.DLL".toList = false ∧
    is_file_allowed "notes.txt".toList = true ∧
    is_file_allowed "image.png".toList = true ∧
    is_file_allowed "README".toList = true ∧
    is_file_allowed [] = true := by
  refine ⟨?_, ?_, by decide, by decide, by decide, by decide, by decide,
    by decide, by decide⟩
  · intro filename
    unfold is_file_allowed
    by_cases h : filename.isEmpty
    · have h0 : filename = [] := by
        cases filename with
        | nil => rfl
        | cons a l => simp [List.isEmpty] at h
      subst h0
      simp [pathSuffix, pathName]
      decide
    · simp [h]
  · intro filename h
    unfold is_file_allowed
    by_cases he : filename.isEmpty
    · simp [he]
    · simp [he, h]
      decide

/-- Witness for C4: the no-suffix hypothesis is satisfiable ("README"). -/
theorem C4_witness :
    pathSuffix "README".toList = [] ∧
      is_file_allowed "README".toList = true :=
  ⟨by decide, C4_file_classifier.2.1 ("README".toList) (by decide)⟩

/-- **C6 counterexample**: with the provider succeeding on both calls,
`set_volume 29` followed by `get_current_volume` returns 28, not
`clamp(29, 0, 100) = 29`: `29 / 100` rounds to the binary64
`5224175567749775 / 2^54 ≈ 0.28999999999999998`, the COM boundary narrows
it to the binary32 `9730785 / 2^25`, and `int(scalar * 100)` truncates
`28.99999916…` down to 28 — refuting the exact round-trip claim. -/
theorem C6_counterexample :
    (get_current_volume ⟨true, true, true⟩
        (set_volume ⟨true, true, true⟩ initVolState 29)).2 = 28 ∧
      max 0 (min 100 (29 : Int)) = 29 := by
  constructor
  · decide
  · decide

set_option maxRecDepth 4000 in
/-- Helper for the amended C6: at every clamped level `n ∈ [0, 100]` the
binary64 division, the binary32 narrowing, the binary64 multiplication and
the truncating `int()` lose at most one unit. Checked by evaluating the
float pipeline at all 101 levels. -/
theorem roundtrip_within_one_all_levels :
    ∀ n ∈ List.range 101,
      (n : Int) - 1 ≤
          ((fl64Frac ((fl32Val (fl64Frac n 100)).frac.1 * 100)
            (fl32Val (fl64Frac n 100)).frac.2).toIntTrunc : Int) ∧
        ((fl64Frac ((fl32Val (fl64Frac n 100)).frac.1 * 100)
            (fl32Val (fl64Frac n 100)).frac.2).toIntTrunc : Int) ≤
          (n : Int) := by
  decide

/-- **C6 (amended)**: when the platform volume provider succeeds on both
calls, `set_volume level` followed by `get_current_volume` returns
`clamp(level, 0, 100)` or `clamp(level, 0, 100) - 1`, for every integer
`level` including negative values and values above 100: the binary64
division, the binary32 narrowing at the COM boundary and the truncating
`int()` can lose exactly one unit, never more. -/
theorem C6_volume_roundtrip_within_one (env : VolEnv) (s : VolState)
    (level : Int) (hres : env.resolveOk = true) (hget : env.getOk = true)
    (hset : env.setOk = true) :
    max 0 (min 100 level) - 1 ≤
        (get_current_volume env (set_volume env s level)).2 ∧
      (get_current_volume env (set_volume env s level)).2 ≤
        max 0 (min 100 level) := by
  have hc0 : (0 : Int) ≤ max 0 (min 100 level) := le_max_left 0 _
  have hc100 : max 0 (min 100 level) ≤ 100 :=
    max_le (by norm_num) (min_le_left 100 level)
  have hmem : (max 0 (min 100 level)).toNat ∈ List.range 101 :=
    List.mem_range.mpr (by omega)
  have hk := roundtrip_within_one_all_levels
    (max 0 (min 100 level)).toNat hmem
  rw [Int.toNat_of_nonneg hc0] at hk
  have hset_eq : set_volume env s level =
      ⟨true, max 0 (min 100 level),
       fl32Val (fl64Frac (max 0 (min 100 level)).toNat 100)⟩ := by
    unfold set_volume get_volume_interface
    by_cases hi : s.iface <;> simp [hi, hres, hset]
  have hget_eq : (get_current_volume env (set_volume env s level)).2 =
      ((fl64Frac
          ((fl32Val (fl64Frac (max 0 (min 100 level)).toNat 100)).frac.1
            * 100)
          (fl32Val (fl64Frac (max 0 (min 100 level)).toNat 100)).frac.2
        ).toIntTrunc : Int) := by
    rw [hset_eq]
    unfold get_current_volume get_volume_interface
    simp [hget]
  rw [hget_eq]
  exact hk

/-- Witness for C6: the concrete failing level 29 stays within one unit
below its clamp. -/
theorem C6_within_one_witness :
    (max 0 (min 100 (29 : Int)) - 1 ≤
        (get_current_volume ⟨true, true, true⟩
          (set_volume ⟨true, true, true⟩ initVolState 29)).2) ∧
      ((get_current_volume ⟨true, true, true⟩
          (set_volume ⟨true, true, true⟩ initVolState 29)).2 ≤
        max 0 (min 100 (29 : Int))) :=
  C6_volume_roundtrip_within_one ⟨true, true, true⟩ initVolState 29
    rfl rfl rfl

/-- **C8**: a volume read never hard-fails: if the handle cannot be
resolved, or the platform query fails, `get_current_volume` returns the
cached last-observed level and leaves it unchanged; the initial cached
level is the default 50. -/
theorem C8_volume_read_fallback (env : VolEnv) (s : VolState)
    (h : (s.iface = false ∧ env.resolveOk = false) ∨ env.getOk = false) :
    (get_current_volume env s).2 = s.cached ∧
      (get_current_volume env s).1.cached = s.cached ∧
      initVolState.cached = 50 := by
  unfold get_current_volume get_volume_interface
  rcases h with ⟨hi, hr⟩ | hg
  · simp [hi, hr, initVolState]
  · by_cases hi : s.iface <;>
      by_cases hr : env.resolveOk <;>
      simp [hi, hr, hg, initVolState]

/-- Witness for C8: with handle resolution failing, the read returns the
default cached level. -/
theorem C8_witness :
    (get_current_volume ⟨false, true, true⟩ initVolState).2 =
        initVolState.cached ∧
      (get_current_volume ⟨false, true, true⟩ initVolState).1.cached =
        initVolState.cached ∧
      initVolState.cached = 50 :=
  C8_volume_read_fallback ⟨false, true, true⟩ initVolState
    (Or.inl ⟨rfl, rfl⟩)

/-- **C7 counterexample**: immediately after a successful `start` the
session is Active with an empty frame buffer, and `stop` then returns
no-data — refuting "stop returns no-data exactly when no recording is
Active, and otherwise returns an encoded payload". -/
theorem C7_counterexample :
    (start_recording ⟨true, true⟩ initRecState).1.recording = true ∧
      (stop_recording ⟨true, true⟩
        (start_recording ⟨true, true⟩ initRecState).1).2 = none :=
  ⟨rfl, rfl⟩

/-- **C7 (amended)**: `start` returns not-started exactly when already
Active or the capture stream cannot be opened, and in the already-Active
case the whole state (in particular the frame buffer) is untouched;
`stop` returns no-data exactly when not Active, or the buffer is empty,
or the encoder is unavailable; any returned payload is mono, 16-bit,
44100 Hz, with one sample per buffered frame, so its duration is the
total buffered frame count divided by the fixed sample rate. -/
theorem C7_recording_lifecycle (env : RecEnv) (s : RecState) :
    ((start_recording env s).2 = false ↔
       (s.recording = true ∨ env.startOk = false)) ∧
    (s.recording = true → (start_recording env s).1 = s) ∧
    ((stop_recording env s).2 = none ↔
       (s.recording = false ∨ s.data = [] ∨ env.encodeOk = false)) ∧
    (∀ w : WavFile, (stop_recording env s).2 = some w →
       w.nchannels = 1 ∧ w.sampwidth = 2 ∧ w.framerate = sample_rate ∧
       w.samples.length = (s.data.map List.length).sum ∧
       wavDuration w = ((s.data.map List.length).sum : ℚ) / 44100) := by
  refine ⟨?_, ?_, ?_, ?_⟩
  · unfold start_recording
    by_cases hr : s.recording <;> by_cases ho : env.startOk <;>
      simp [hr, ho]
  · intro hr
    unfold start_recording
    simp [hr]
  · unfold stop_recording
    by_cases hr : s.recording <;> by_cases he : env.encodeOk <;>
      by_cases hd : s.data.isEmpty <;>
      simp_all [List.isEmpty_iff]
  · intro w hw
    unfold stop_recording at hw
    by_cases hr : s.recording <;> by_cases he : env.encodeOk <;>
      by_cases hd : s.data.isEmpty <;> simp [hr, he, hd] at hw
    subst hw
    have hlen : (encode_wav s.data).samples.length
        = (s.data.map List.length).sum := by
      simp only [encode_wav, List.length_map, List.length_flatten]
    have hdur : wavDuration (encode_wav s.data)
        = ((s.data.map List.length).sum : ℚ) / 44100 := by
      unfold wavDuration
      rw [hlen]
      norm_num [encode_wav, sample_rate]
    exact ⟨rfl, rfl, rfl, hlen, hdur⟩

/-- Witness for C7: the already-Active and payload branches are
realizable at concrete states. -/
theorem C7_witness :
    (start_recording ⟨true, true⟩ ⟨true, [[1]], true⟩).1 =
        ⟨true, [[1]], true⟩ ∧
      (encode_wav [[1, 0]]).framerate = sample_rate :=
  ⟨(C7_recording_lifecycle ⟨true, true⟩ ⟨true, [[1]], true⟩).2.1 rfl,
   ((C7_recording_lifecycle ⟨true, true⟩ ⟨true, [[1, 0]], true⟩).2.2.2
      (encode_wav [[1, 0]]) rfl).2.2.1⟩

/-- **C5 counterexample**: "payload.exe" is denied by the file classifier,
yet the video handler persists it to the downloads directory — the
classifier is not consulted on the video transport kind, refuting "a
denied filename is never written to disk". -/
theorem C5_counterexample :
    is_file_allowed "payload.exe".toList = false ∧
      (handle_video ⟨"20250101_000000".toList, "000000".toList⟩ ⟨[]⟩
          (some "payload.exe".toList)).written =
        some "payload.exe".toList :=
  ⟨by decide, rfl⟩

/-- **C5 (amended)**: only the document handler consults the file
classifier: a denied filename is never persisted by `handle_document`
(the directory is unchanged and a refusal is sent), while the video and
audio handlers persist any non-empty operator-supplied filename with no
classifier call. -/
theorem C5_upload_filtering (env : UploadEnv) (d : Disk) :
    (∀ fn : Option (List Char),
      is_file_allowed (orDefault fn ("file_".toList ++ env.ts_full)) =
          false →
        (handle_document env d fn).written = none ∧
        (handle_document env d fn).disk = d ∧
        (handle_document env d fn).refusedExt = true) ∧
    (∀ n : List Char, n.isEmpty = false →
      (handle_video env d (some n)).written = some n ∧
        (handle_audio env d (some n)).written = some n) := by
  constructor
  · intro fn h
    simp only [handle_document, h]
    simp
  · intro n hn
    simp only [handle_video, handle_audio, orDefault]
    simp [hn]

/-- Witness for C5: a blocked document filename is refused, and the same
filename as a video attachment is persisted. -/
theorem C5_witness :
    (handle_document ⟨"20250101_000000".toList, "000000".toList⟩ ⟨[]⟩
        (some "payload.exe".toList)).written = none ∧
      (handle_video ⟨"20250101_000000".toList, "000000".toList⟩ ⟨[]⟩
          (some "payload.exe".toList)).written =
        some "payload.exe".toList :=
  ⟨((C5_upload_filtering ⟨"20250101_000000".toList, "000000".toList⟩
      ⟨[]⟩).1 (some "payload.exe".toList) (by decide)).1,
   ((C5_upload_filtering ⟨"20250101_000000".toList, "000000".toList⟩
      ⟨[]⟩).2 ("payload.exe".toList) (by decide)).1⟩

/-- **C9 counterexample**: with "v.mp4" already present in the downloads
directory, a video upload named "v.mp4" is written under exactly that
name — the existing file is overwritten and no time-based suffix is
appended, refuting the claim for the video transport kind. -/
theorem C9_counterexample :
    "v.mp4".toList ∈ (Disk.mk ["v.mp4".toList]).files ∧
      (handle_video ⟨"20250101_120000".toList, "120000".toList⟩
          ⟨["v.mp4".toList]⟩ (some "v.mp4".toList)).written =
        some "v.mp4".toList :=
  ⟨by decide, rfl⟩

/-- **C9 (amended)**: only document uploads get the collision-triggered
time suffix: when an allowed document filename already exists in the
downloads directory, `handle_document` writes `stem_%H%M%S` plus the
original extension instead of the colliding name, while video and audio
uploads write the colliding name unchanged (overwriting). -/
theorem C9_collision_suffix (env : UploadEnv) (d : Disk) (n : List Char)
    (hne : n.isEmpty = false)
    (hok : is_file_allowed n = true)
    (hcol : d.files.contains n = true) :
    (handle_document env d (some n)).written =
      some (pathStem n ++ "_".toList ++ env.ts_hms ++ pathSuffix n) ∧
    (handle_video env d (some n)).written = some n ∧
    (handle_audio env d (some n)).written = some n := by
  have hmem : n ∈ d.files := by simpa using hcol
  refine ⟨?_, ?_, ?_⟩
  · simp only [handle_document, orDefault]
    simp [hne, hok, hmem]
  · simp only [handle_video, orDefault]
    simp [hne]
  · simp only [handle_audio, orDefault]
    simp [hne]

/-- Witness for C9: a colliding allowed document name gets the time
suffix; the same collision as a video is written unchanged. -/
theorem C9_witness :
    (handle_document ⟨"20250101_120000".toList, "120000".toList⟩
        ⟨["v.mp4".toList]⟩ (some "v.mp4".toList)).written =
      some (pathStem "v.mp4".toList ++ "_".toList ++ "120000".toList ++
        pathSuffix "v.mp4".toList) ∧
    (handle_video ⟨"20250101_120000".toList, "120000".toList⟩
        ⟨["v.mp4".toList]⟩ (some "v.mp4".toList)).written =
      some "v.mp4".toList ∧
    (handle_audio ⟨"20250101_120000".toList, "120000".toList⟩
        ⟨["v.mp4".toList]⟩ (some "v.mp4".toList)).written =
      some "v.mp4".toList :=
  C9_collision_suffix ⟨"20250101_120000".toList, "120000".toList⟩
    ⟨["v.mp4".toList]⟩ ("v.mp4".toList) (by decide) (by decide) (by decide)

/-- **C1**: for a sender id that is not on the allow-list, or whose
counter already marks it blocked, no sequence of inbound events (messages
or callback queries) ever reaches a wrapped handler — so no
CapabilityProvider call can originate from it; the handled-event count
for that id stays zero over any trace. -/
theorem C1_gate_shields_providers (cfg : Cfg) (uid : Nat) :
    ∀ (events : List Event) (s : AuthState),
      is_authorized cfg uid = false ∨ is_blocked s uid = true →
      handledCount uid (runTrace cfg s events).2 = 0 := by
  intro events
  induction events with
  | nil =>
    intro s _
    rfl
  | cons e es ih =>
    intro s h
    have hbad := bad_preserved cfg s e uid h
    have hnot :
        ¬(e.uid = uid ∧ (processEvent cfg s e).outcome = Outcome.handled) := by
      rintro ⟨h1, h2⟩
      apply processEvent_not_handled cfg s e (h1 ▸ h) h2
    simp only [runTrace]
    rw [handledCount_cons, if_neg hnot, ih (processEvent cfg s e).state hbad]

/-- Witness for C1: id 2 is outside the allow-list `[1]`; a mixed trace of
its messages and callbacks, with an authorized message from id 1 in
between, yields zero handled events for id 2. -/
theorem C1_witness :
    handledCount 2 (runTrace ⟨[1]⟩ initAuthState
      [Event.message 2, Event.callback 2, Event.message 1,
       Event.message 2]).2 = 0 :=
  C1_gate_shields_providers ⟨[1]⟩ 2
    [Event.message 2, Event.callback 2, Event.message 1, Event.message 2]
    initAuthState (Or.inl (by decide))

/-- Schedule of an unauthorized id's replicated events, generalized over
the starting counter value (bounded by `MAX_ATTEMPTS + 1`): the counter
saturates at `MAX_ATTEMPTS + 1` and diagnostics are emitted only while
the counter is below `MAX_ATTEMPTS`. -/
theorem runTrace_replicate_unauth (cfg : Cfg) (uid : Nat)
    (hu : is_authorized cfg uid = false) :
    ∀ (n : Nat) (s : AuthState), s.attempts uid ≤ MAX_ATTEMPTS + 1 →
      ((runTrace cfg s (List.replicate n (Event.message uid))).1.attempts
          uid = min (s.attempts uid + n) (MAX_ATTEMPTS + 1)) ∧
      (diagCount uid
          (runTrace cfg s (List.replicate n (Event.message uid))).2
          = min n (MAX_ATTEMPTS - s.attempts uid)) := by
  intro n
  induction n with
  | zero =>
    intro s hs
    refine ⟨?_, ?_⟩
    · simp only [List.replicate, runTrace]
      unfold MAX_ATTEMPTS at *
      omega
    · simp [List.replicate, runTrace, diagCount]
  | succ n ih =>
    intro s hs
    rw [List.replicate_succ]
    simp only [runTrace]
    by_cases hb : is_blocked s uid
    · have hstep : processEvent cfg s (Event.message uid) =
          ⟨s, Outcome.dropped, false⟩ :=
        processEvent_blocked cfg s (Event.message uid) hb
      have hk : s.attempts uid = MAX_ATTEMPTS + 1 := by
        unfold is_blocked at hb
        simp only [decide_eq_true_eq] at hb
        omega
      obtain ⟨ih1, ih2⟩ := ih s hs
      rw [hstep]
      refine ⟨?_, ?_⟩
      · rw [ih1]
        omega
      · rw [diagCount_cons, if_neg (by simp), ih2]
        unfold MAX_ATTEMPTS at *
        omega
    · have hk : s.attempts uid ≤ MAX_ATTEMPTS := by
        unfold is_blocked at hb
        simp only [decide_eq_true_eq] at hb
        omega
      have hstep : processEvent cfg s (Event.message uid) =
          ⟨⟨fun u => if u = uid then s.attempts uid + 1 else s.attempts u⟩,
           Outcome.dropped,
           decide (s.attempts uid + 1 ≤ MAX_ATTEMPTS)⟩ := by
        unfold processEvent auth_middleware log_unauthorized_attempt
        simp [hb, hu]
      set s' : AuthState :=
        ⟨fun u => if u = uid then s.attempts uid + 1 else s.attempts u⟩
        with hsdef
      have hs' : s'.attempts uid = s.attempts uid + 1 := by
        rw [hsdef]
        simp
      obtain ⟨ih1, ih2⟩ := ih s' (by rw [hs']; omega)
      rw [hstep]
      refine ⟨?_, ?_⟩
      · rw [ih1, hs']
        omega
      · rw [diagCount_cons, ih2, hs']
        by_cases hd : s.attempts uid + 1 ≤ MAX_ATTEMPTS
        · rw [if_pos ⟨rfl, by simpa using hd⟩]
          unfold MAX_ATTEMPTS at *
          omega
        · rw [if_neg (by simpa using fun _ => hd)]
          unfold MAX_ATTEMPTS at *
          omega

/-- **C2**: for an id outside the allow-list, running `n` of its events
from the fresh process state leaves its counter at
`min n (MAX_ATTEMPTS + 1)`, emits exactly `min n MAX_ATTEMPTS`
diagnostics (so only the first through `MAX_ATTEMPTS`-th attempts are
logged), marks the id blocked exactly when `n ≥ MAX_ATTEMPTS + 1`, and in
any blocked state every further event from the id — message or callback —
is dropped unchanged with no diagnostic. -/
theorem C2_lockout_schedule (cfg : Cfg) (uid : Nat) (n : Nat)
    (hu : is_authorized cfg uid = false) :
    ((runTrace cfg initAuthState
        (List.replicate n (Event.message uid))).1.attempts uid
      = min n (MAX_ATTEMPTS + 1)) ∧
    (diagCount uid (runTrace cfg initAuthState
        (List.replicate n (Event.message uid))).2 = min n MAX_ATTEMPTS) ∧
    (is_blocked (runTrace cfg initAuthState
        (List.replicate n (Event.message uid))).1 uid
      = decide (MAX_ATTEMPTS + 1 ≤ n)) ∧
    (∀ s : AuthState, is_blocked s uid = true → ∀ e : Event, e.uid = uid →
      processEvent cfg s e = ⟨s, Outcome.dropped, false⟩) := by
  obtain ⟨h1, h2⟩ := runTrace_replicate_unauth cfg uid hu n initAuthState
    (by simp [initAuthState])
  have h1' : (runTrace cfg initAuthState
      (List.replicate n (Event.message uid))).1.attempts uid
      = min n (MAX_ATTEMPTS + 1) := by
    rw [h1]
    simp [initAuthState]
  refine ⟨h1', ?_, ?_, ?_⟩
  · rw [h2]
    simp [initAuthState]
  · unfold is_blocked
    rw [h1']
    refine decide_eq_decide.mpr ?_
    unfold MAX_ATTEMPTS
    omega
  · intro s hb e he
    exact processEvent_blocked cfg s e (he ▸ hb)

/-- Witness for C2: id 2 against allow-list `[1]`, seven attempts: the
counter saturates at 6 and exactly 5 diagnostics are emitted. -/
theorem C2_witness :
    ((runTrace ⟨[1]⟩ initAuthState
        (List.replicate 7 (Event.message 2))).1.attempts 2
      = min 7 (MAX_ATTEMPTS + 1)) ∧
    (diagCount 2 (runTrace ⟨[1]⟩ initAuthState
        (List.replicate 7 (Event.message 2))).2 = min 7 MAX_ATTEMPTS) :=
  ⟨(C2_lockout_schedule ⟨[1]⟩ 2 7 (by decide)).1,
   (C2_lockout_schedule ⟨[1]⟩ 2 7 (by decide)).2.1⟩

/-- One step keeps every id's counter within `MAX_ATTEMPTS + 1` (the
blocked check runs before the increment). -/
theorem auth_middleware_attempts_bound (cfg : Cfg) (s : AuthState)
    (u uid : Nat) (hs : s.attempts uid ≤ MAX_ATTEMPTS + 1) :
    (auth_middleware cfg s u).state.attempts uid ≤ MAX_ATTEMPTS + 1 := by
  unfold auth_middleware log_unauthorized_attempt
  by_cases hb : is_blocked s u
  · simpa [hb] using hs
  · by_cases ha : is_authorized cfg u
    · simpa [hb, ha] using hs
    · have hku : s.attempts u ≤ MAX_ATTEMPTS := by
        unfold is_blocked at hb
        simp only [decide_eq_true_eq] at hb
        omega
      simp only [hb, ha, Bool.false_eq_true, if_false, Bool.not_false,
        if_true]
      by_cases he : uid = u
      · subst he
        simp
        omega
      · simpa [he] using hs

/-- One event keeps every id's counter within `MAX_ATTEMPTS + 1`. -/
theorem processEvent_attempts_bound (cfg : Cfg) (s : AuthState) (e : Event)
    (uid : Nat) (hs : s.attempts uid ≤ MAX_ATTEMPTS + 1) :
    (processEvent cfg s e).state.attempts uid ≤ MAX_ATTEMPTS + 1 := by
  cases e with
  | message u => exact auth_middleware_attempts_bound cfg s u uid hs
  | callback u =>
    rw [show (processEvent cfg s (Event.callback u)).state =
        (auth_middleware cfg s u).state from callback_state_eq cfg s u]
    exact auth_middleware_attempts_bound cfg s u uid hs

/-- **C10**: over every event trace from the fresh process state, every
id's `failedAttempts` counter stays at most `MAX_ATTEMPTS + 1` (= 6):
the blocked check precedes the increment, and once an id is blocked its
events no longer change the counter at all. -/
theorem C10_attempts_bounded (cfg : Cfg) (events : List Event) (uid : Nat) :
    ((runTrace cfg initAuthState events).1.attempts uid
        ≤ MAX_ATTEMPTS + 1) ∧
    (∀ s : AuthState, is_blocked s uid = true → ∀ e : Event, e.uid = uid →
      (processEvent cfg s e).state.attempts uid = s.attempts uid) := by
  constructor
  · have general : ∀ (es : List Event) (s : AuthState),
        s.attempts uid ≤ MAX_ATTEMPTS + 1 →
        (runTrace cfg s es).1.attempts uid ≤ MAX_ATTEMPTS + 1 := by
      intro es
      induction es with
      | nil =>
        intro s hs
        exact hs
      | cons e es ih =>
        intro s hs
        simp only [runTrace]
        exact ih _ (processEvent_attempts_bound cfg s e uid hs)
    exact general events initAuthState (by simp [initAuthState])
  · intro s hb e he
    rw [processEvent_blocked cfg s e (he ▸ hb)]

/-- Witness for C10: nine events from blocked-out id 2 leave its counter
at most 6, and a step from a concrete blocked state leaves the counter
unchanged. -/
theorem C10_witness :
    ((runTrace (Cfg.mk [1]) initAuthState
        (List.replicate 9 (Event.message 2))).1.attempts 2
      ≤ MAX_ATTEMPTS + 1) ∧
    ((processEvent (Cfg.mk [1])
        ⟨fun u => if u = 2 then 6 else 0⟩ (Event.message 2)).state.attempts 2
      = (AuthState.mk fun u => if u = 2 then 6 else 0).attempts 2) :=
  ⟨(C10_attempts_bounded ⟨[1]⟩ (List.replicate 9 (Event.message 2)) 2).1,
   (C10_attempts_bounded ⟨[1]⟩ [] 2).2
     ⟨fun u => if u = 2 then 6 else 0⟩ (by decide) (Event.message 2) rfl⟩

end Bot
